import Mathlib

/-!
Shallow embedding of the pbs-exporter metric-collection pipeline
(`main.go` of enix/pbs-exporter).

The HTTP world is modelled as an oracle `Api : ApiRequest → Reply`.  Each
collector function of the source (`Collect`, `collectFromAPI`,
`getNodeMetrics`, `getDatastoreMetric`, `getNamespaceMetric`) is embedded as
a Lean function returning an `Emit` record: the requests issued in order,
the arguments of each namespace-collector invocation, the metric samples
sent to the Prometheus channel in order, and the error result.  Samples are
appended to the trace at the program point where the Go code sends them on
the channel, so samples emitted before a later failing fetch stay in the
trace exactly as they stay observable in the real exporter.

Go `int64` fields are modelled as `Int`, `float64` fields as `Rat` (the
`float64(..)` conversions of the source are modelled as exact; no claim
here depends on floating-point rounding).  JSON decoding is abstracted: a
response body either is one of the four expected shapes or is `malformed`,
which yields the decode error exactly as `json.Unmarshal` failure does.
-/

namespace PbsExporter

/-- Constant `promNamespace` from main.go. -/
def promNamespace : String := "pbs"

/-- Constant `datastoreUsageApi` from main.go. -/
def datastoreUsageApi : String := "/api2/json/status/datastore-usage"

/-- Constant `datastoreApi` from main.go. -/
def datastoreApi : String := "/api2/json/admin/datastore"

/-- Constant `nodeApi` from main.go. -/
def nodeApi : String := "/api2/json/nodes"

/-- Mirror of `prometheus.BuildFQName`: joins the non-empty components of
the fully-qualified metric name with underscores. -/
def buildFQName (ns subsystem name : String) : String :=
  if name = "" then ""
  else if ns ≠ "" ∧ subsystem ≠ "" then ns ++ "_" ++ subsystem ++ "_" ++ name
  else if ns ≠ "" then ns ++ "_" ++ name
  else if subsystem ≠ "" then subsystem ++ "_" ++ name
  else name

/-- Name of the `up` metric descriptor. -/
def upName : String := buildFQName promNamespace "" "up"

/-- Name of the `available` metric descriptor. -/
def availableName : String := buildFQName promNamespace "" "available"

/-- Name of the `size` metric descriptor. -/
def sizeName : String := buildFQName promNamespace "" "size"

/-- Name of the `used` metric descriptor. -/
def usedName : String := buildFQName promNamespace "" "used"

/-- Name of the `snapshot_count` metric descriptor. -/
def snapshotCountName : String := buildFQName promNamespace "" "snapshot_count"

/-- Name of the `snapshot_vm_count` metric descriptor. -/
def snapshotVmCountName : String := buildFQName promNamespace "" "snapshot_vm_count"

/-- Name of the `host_cpu_usage` metric descriptor. -/
def hostCpuUsageName : String := buildFQName promNamespace "" "host_cpu_usage"

/-- Name of the `host_memory_free` metric descriptor. -/
def hostMemoryFreeName : String := buildFQName promNamespace "" "host_memory_free"

/-- Name of the `host_memory_total` metric descriptor. -/
def hostMemoryTotalName : String := buildFQName promNamespace "" "host_memory_total"

/-- Name of the `host_memory_used` metric descriptor. -/
def hostMemoryUsedName : String := buildFQName promNamespace "" "host_memory_used"

/-- Name of the `host_swap_free` metric descriptor. -/
def hostSwapFreeName : String := buildFQName promNamespace "" "host_swap_free"

/-- Name of the `host_swap_total` metric descriptor. -/
def hostSwapTotalName : String := buildFQName promNamespace "" "host_swap_total"

/-- Name of the `host_swap_used` metric descriptor. -/
def hostSwapUsedName : String := buildFQName promNamespace "" "host_swap_used"

/-- Name of the descriptor held by the Go variable `host_disk_available`.
The source passes the string "host_available_free" to BuildFQName here. -/
def hostDiskAvailableName : String := buildFQName promNamespace "" "host_available_free"

/-- Name of the `host_disk_total` metric descriptor. -/
def hostDiskTotalName : String := buildFQName promNamespace "" "host_disk_total"

/-- Name of the `host_disk_used` metric descriptor. -/
def hostDiskUsedName : String := buildFQName promNamespace "" "host_disk_used"

/-- Name of the `host_uptime` metric descriptor. -/
def hostUptimeName : String := buildFQName promNamespace "" "host_uptime"

/-- Name of the `host_io_wait` metric descriptor. -/
def hostIoWaitName : String := buildFQName promNamespace "" "host_io_wait"

/-- One element of `DatastoreResponse.Data` / the `Datastore` struct:
{avail, store, total, used, ns}. -/
structure Datastore where
  avail : Int
  store : String
  total : Int
  used : Int
  ns : String
deriving DecidableEq

/-- Decoded `HostResponse.Data`: node status fields. `cpu` and `wait` are
`float64` in the source, the rest `int64`. -/
structure HostData where
  cpu : Rat
  memFree : Int
  memTotal : Int
  memUsed : Int
  swapFree : Int
  swapTotal : Int
  swapUsed : Int
  diskAvail : Int
  diskTotal : Int
  diskUsed : Int
  uptime : Int
  wait : Rat
deriving DecidableEq

/-- Abstract response body: either one of the four JSON shapes the exporter
decodes (`DatastoreResponse`, `NamespaceResponse` projected to its `ns`
strings, `SnapshotResponse` projected to its `backup-id` strings,
`HostResponse`), or a body that fails to decode as the expected shape. -/
inductive Body where
  | datastores (ds : List Datastore)
  | namespaces (ns : List String)
  | snapshots (ids : List String)
  | host (h : HostData)
  | malformed
deriving DecidableEq

/-- An outbound HTTP request: method, URL, and the single Authorization
header value the exporter sets on it. -/
structure ApiRequest where
  method : String
  url : String
  authHeader : String
deriving DecidableEq

/-- Outcome of performing a request, as observed by the exporter:
`client.Do` failure, body-read failure, or a status code with a body. -/
inductive Reply where
  | transportErr
  | readErr
  | ok (status : Nat) (body : Body)
deriving DecidableEq

/-- The remote server as an oracle from requests to replies. -/
def Api : Type := ApiRequest → Reply

/-- Error taxonomy of one API call, in the order the source checks them:
transport error from `client.Do`, body read error from `io.ReadAll`,
non-200 status, JSON decode error. -/
inductive ApiError where
  | transport
  | readBody
  | status (code : Nat)
  | decode
deriving DecidableEq

/-- A metric sample sent to the Prometheus channel: descriptor name, label
values in the descriptor's label order, gauge value. -/
structure Sample where
  name : String
  labelValues : List String
  value : Rat
deriving DecidableEq

/-- Build a GET request carrying the exporter's Authorization header, as
`http.NewRequest("GET", url, nil)` followed by `req.Header.Set` does. -/
def mkReq (url auth : String) : ApiRequest :=
  { method := "GET", url := url, authHeader := auth }

/-- The request/read/status-check/decode sequence that each of
`collectFromAPI`, `getNodeMetrics`, `getDatastoreMetric` and
`getNamespaceMetric` performs verbatim: perform the request, fail on
transport or read error, fail when the status code is not 200, then decode
the body, failing when it does not have the expected shape. -/
def fetchResult {α : Type} (api : Api) (req : ApiRequest) (dec : Body → Option α) :
    Except ApiError α :=
  match api req with
  | .transportErr => .error .transport
  | .readErr => .error .readBody
  | .ok status body =>
    if status ≠ 200 then .error (.status status)
    else
      match dec body with
      | none => .error .decode
      | some a => .ok a

/-- Decode a body as `DatastoreResponse`. -/
def decDatastores : Body → Option (List Datastore)
  | .datastores ds => some ds
  | _ => none

/-- Decode a body as `NamespaceResponse` (the list of `ns` strings). -/
def decNamespaces : Body → Option (List String)
  | .namespaces ns => some ns
  | _ => none

/-- Decode a body as `SnapshotResponse` (the list of `backup-id` strings). -/
def decSnapshots : Body → Option (List String)
  | .snapshots ids => some ids
  | _ => none

/-- Decode a body as `HostResponse`. -/
def decHost : Body → Option HostData
  | .host h => some h
  | _ => none

/-- The `Exporter` struct: endpoint and precomputed Authorization header. -/
structure Exporter where
  endpoint : String
  authorizationHeader : String
deriving DecidableEq

/-- `NewExporter` from main.go: stores the endpoint and builds the
Authorization header once as "PBSAPIToken=" + username + "!" + apitokenname
+ ":" + apitoken. -/
def NewExporter (endpoint username apitoken apitokenname : String) : Exporter :=
  { endpoint := endpoint
    authorizationHeader :=
      "PBSAPIToken=" ++ username ++ "!" ++ apitokenname ++ ":" ++ apitoken }

/-- URL of the datastore usage listing call. -/
def usageUrl (e : Exporter) : String := e.endpoint ++ datastoreUsageApi

/-- URL of the node status call (hard-coded node name "localhost"). -/
def nodeUrl (e : Exporter) : String := e.endpoint ++ nodeApi ++ "/localhost/status"

/-- URL of the namespace listing call for one datastore. -/
def nsListUrl (e : Exporter) (store : String) : String :=
  e.endpoint ++ datastoreApi ++ "/" ++ store ++ "/namespace"

/-- URL of the snapshot listing call for one datastore and namespace. -/
def snapshotsUrl (e : Exporter) (store ns : String) : String :=
  e.endpoint ++ datastoreApi ++ "/" ++ store ++ "/snapshots?ns=" ++ ns

/-- The usage listing request of a scrape. -/
def usageReq (e : Exporter) : ApiRequest := mkReq (usageUrl e) e.authorizationHeader

/-- The node status request of a scrape. -/
def nodeReq (e : Exporter) : ApiRequest := mkReq (nodeUrl e) e.authorizationHeader

/-- The namespace listing request for one datastore. -/
def nsListReq (e : Exporter) (store : String) : ApiRequest :=
  mkReq (nsListUrl e store) e.authorizationHeader

/-- The snapshot listing request for one datastore and namespace. -/
def snapshotsReq (e : Exporter) (store ns : String) : ApiRequest :=
  mkReq (snapshotsUrl e store ns) e.authorizationHeader

/-- Observable effect of (part of) a scrape: requests issued in order,
(store, namespace) arguments of each `getNamespaceMetric` invocation in
order, samples sent to the channel in order, and the returned error
(`none` is success). -/
structure Emit where
  reqs : List ApiRequest
  nsCalls : List (String × String)
  samples : List Sample
  err : Option ApiError
deriving DecidableEq

/-- The `vmCount` map of `getNamespaceMetric`: for each distinct backup id
its number of occurrences in the listing.  Go map iteration order is
unspecified, so the enumeration order of the distinct keys chosen here
(`List.dedup`) is one admissible order; all claims about these pairs are
order-independent. -/
def vmCountPairs (ids : List String) : List (String × Nat) :=
  ids.dedup.map (fun k => (k, ids.count k))

/-- `getNamespaceMetric`: fetch the snapshot listing of the namespace,
emit one `snapshot_count{namespace}` sample with the listing length, then
one `snapshot_vm_count{namespace, vm_id}` sample per distinct backup id
with its multiplicity. -/
def getNamespaceMetric (e : Exporter) (api : Api) (datastore ns : String) : Emit :=
  let req := snapshotsReq e datastore ns
  match fetchResult api req decSnapshots with
  | .error er => { reqs := [req], nsCalls := [(datastore, ns)], samples := [], err := some er }
  | .ok ids =>
    { reqs := [req]
      nsCalls := [(datastore, ns)]
      samples :=
        { name := snapshotCountName, labelValues := [ns], value := (ids.length : Rat) } ::
          (vmCountPairs ids).map (fun p =>
            { name := snapshotVmCountName, labelValues := [ns, p.1], value := (p.2 : Rat) })
      err := none }

/-- Sequencing of two collection steps, as the source's `if err != nil
{ return err }` pattern composes them: when the first step failed, its
effects stand and the second step never runs; otherwise the effects
concatenate and the second step's error is the result. -/
def Emit.andThen (a b : Emit) : Emit :=
  match a.err with
  | some er => { reqs := a.reqs, nsCalls := a.nsCalls, samples := a.samples, err := some er }
  | none =>
    { reqs := a.reqs ++ b.reqs
      nsCalls := a.nsCalls ++ b.nsCalls
      samples := a.samples ++ b.samples
      err := b.err }

/-- The namespace loop at the end of `getDatastoreMetric`: for each entry,
skip it when its name is the empty string, otherwise invoke
`getNamespaceMetric`; the first error aborts the rest of the loop. -/
def nsLoop (e : Exporter) (api : Api) (store : String) : List String → Emit
  | [] => { reqs := [], nsCalls := [], samples := [], err := none }
  | n :: rest =>
    if n = "" then nsLoop e api store rest
    else (getNamespaceMetric e api store n).andThen (nsLoop e api store rest)

/-- `getDatastoreMetric`: first emit the three unlabeled usage gauges of the
datastore (these are sent to the channel before any further fetch), then
fetch the namespace listing and run the namespace loop. -/
def getDatastoreMetric (e : Exporter) (api : Api) (d : Datastore) : Emit :=
  let dsSamples : List Sample :=
    [{ name := availableName, labelValues := [], value := (d.avail : Rat) },
     { name := sizeName, labelValues := [], value := (d.total : Rat) },
     { name := usedName, labelValues := [], value := (d.used : Rat) }]
  let req := nsListReq e d.store
  match fetchResult api req decNamespaces with
  | .error er => { reqs := [req], nsCalls := [], samples := dsSamples, err := some er }
  | .ok nss =>
    let em := nsLoop e api d.store nss
    { reqs := req :: em.reqs
      nsCalls := em.nsCalls
      samples := dsSamples ++ em.samples
      err := em.err }

/-- The datastore loop of `collectFromAPI`: invoke `getDatastoreMetric` per
datastore; the first error aborts the rest of the loop. -/
def dsLoop (e : Exporter) (api : Api) : List Datastore → Emit
  | [] => { reqs := [], nsCalls := [], samples := [], err := none }
  | d :: rest => (getDatastoreMetric e api d).andThen (dsLoop e api rest)

/-- The 12 host gauge samples `getNodeMetrics` sends after a successful
decode, in source order, all with an empty label set. -/
def hostSamples (h : HostData) : List Sample :=
  [{ name := hostCpuUsageName, labelValues := [], value := h.cpu },
   { name := hostMemoryFreeName, labelValues := [], value := (h.memFree : Rat) },
   { name := hostMemoryTotalName, labelValues := [], value := (h.memTotal : Rat) },
   { name := hostMemoryUsedName, labelValues := [], value := (h.memUsed : Rat) },
   { name := hostSwapFreeName, labelValues := [], value := (h.swapFree : Rat) },
   { name := hostSwapTotalName, labelValues := [], value := (h.swapTotal : Rat) },
   { name := hostSwapUsedName, labelValues := [], value := (h.swapUsed : Rat) },
   { name := hostDiskAvailableName, labelValues := [], value := (h.diskAvail : Rat) },
   { name := hostDiskTotalName, labelValues := [], value := (h.diskTotal : Rat) },
   { name := hostDiskUsedName, labelValues := [], value := (h.diskUsed : Rat) },
   { name := hostUptimeName, labelValues := [], value := (h.uptime : Rat) },
   { name := hostIoWaitName, labelValues := [], value := h.wait }]

/-- `getNodeMetrics`: fetch the node status (fixed node name) and on success
emit the host gauges; on failure emit nothing. -/
def getNodeMetrics (e : Exporter) (api : Api) : Emit :=
  let req := nodeReq e
  match fetchResult api req decHost with
  | .error er => { reqs := [req], nsCalls := [], samples := [], err := some er }
  | .ok h => { reqs := [req], nsCalls := [], samples := hostSamples h, err := none }

/-- `collectFromAPI`: fetch the datastore usage listing, run the datastore
loop over its entries, then fetch the node metrics last. -/
def collectFromAPI (e : Exporter) (api : Api) : Emit :=
  match fetchResult api (usageReq e) decDatastores with
  | .error er => { reqs := [usageReq e], nsCalls := [], samples := [], err := some er }
  | .ok ds =>
    let em := (dsLoop e api ds).andThen (getNodeMetrics e api)
    { reqs := usageReq e :: em.reqs
      nsCalls := em.nsCalls
      samples := em.samples
      err := em.err }

/-- The `up` gauge sample. -/
def upSample (v : Rat) : Sample := { name := upName, labelValues := [], value := v }

/-- `Collect`: run `collectFromAPI`; on error the samples already sent stay
on the channel and a `up=0` sample is appended, on success `up=1` is
appended after all nested collectors completed. -/
def Collect (e : Exporter) (api : Api) : List Sample :=
  let em := collectFromAPI e api
  match em.err with
  | some _ => em.samples ++ [upSample 0]
  | none => em.samples ++ [upSample 1]

/-- Configuration strings handled by `main` before parsing: one field per
flag variable. -/
structure Config where
  loglevel : String
  endpoint : String
  username : String
  apitokenname : String
  apitoken : String
  timeout : String
  insecure : String
  metricsPath : String
  listenAddress : String
deriving DecidableEq

/-- The flag defaults declared in main.go. -/
def defaultFlags : Config :=
  { loglevel := "info"
    endpoint := "http://localhost:8007"
    username := "root@pam"
    apitokenname := "pbs-exporter"
    apitoken := ""
    timeout := "5s"
    insecure := "false"
    metricsPath := "/metrics"
    listenAddress := ":9101" }

/-- The environment-override block at the top of `main`, in source order:
for each configuration item, a non-empty environment value overwrites the
flag value.  `getenv` models `os.Getenv`, which returns "" for unset
variables. -/
def resolveConfig (flags : Config) (getenv : String → String) : Config :=
  let c0 := flags
  let c1 := if getenv "PBS_LOGLEVEL" ≠ "" then
    { c0 with loglevel := getenv "PBS_LOGLEVEL" } else c0
  let c2 := if getenv "PBS_ENDPOINT" ≠ "" then
    { c1 with endpoint := getenv "PBS_ENDPOINT" } else c1
  let c3 := if getenv "PBS_USERNAME" ≠ "" then
    { c2 with username := getenv "PBS_USERNAME" } else c2
  let c4 := if getenv "PBS_API_TOKEN_NAME" ≠ "" then
    { c3 with apitokenname := getenv "PBS_API_TOKEN_NAME" } else c3
  let c5 := if getenv "PBS_API_TOKEN" ≠ "" then
    { c4 with apitoken := getenv "PBS_API_TOKEN" } else c4
  let c6 := if getenv "PBS_TIMEOUT" ≠ "" then
    { c5 with timeout := getenv "PBS_TIMEOUT" } else c5
  let c7 := if getenv "PBS_INSECURE" ≠ "" then
    { c6 with insecure := getenv "PBS_INSECURE" } else c6
  let c8 := if getenv "PBS_METRICS_PATH" ≠ "" then
    { c7 with metricsPath := getenv "PBS_METRICS_PATH" } else c7
  if getenv "PBS_LISTEN_ADDRESS" ≠ "" then
    { c8 with listenAddress := getenv "PBS_LISTEN_ADDRESS" } else c8

/-- Example exporter used by concrete witnesses and counterexamples. -/
def eW : Exporter := NewExporter "http://pbs" "user@pbs" "secret" "tokname"

/-- Example datastore usage entry. -/
def dW : Datastore := { avail := 100, store := "store1", total := 500, used := 400, ns := "" }

/-- Example node status data. -/
def hW : HostData :=
  { cpu := 1, memFree := 1, memTotal := 2, memUsed := 3, swapFree := 4, swapTotal := 5
    swapUsed := 6, diskAvail := 7, diskTotal := 8, diskUsed := 9, uptime := 10, wait := 11 }

/-- Mock server where every call succeeds: one datastore, namespace listing
["", "ns1"], snapshot listing ["a", "a", "b"]. -/
def apiAllOk : Api := fun r =>
  if r.url = usageUrl eW then .ok 200 (.datastores [dW])
  else if r.url = nsListUrl eW "store1" then .ok 200 (.namespaces ["", "ns1"])
  else if r.url = snapshotsUrl eW "store1" "ns1" then .ok 200 (.snapshots ["a", "a", "b"])
  else if r.url = nodeUrl eW then .ok 200 (.host hW)
  else .transportErr

/-- Mock server where the namespace listing call fails with HTTP 500. -/
def apiNsFail : Api := fun r =>
  if r.url = usageUrl eW then .ok 200 (.datastores [dW])
  else if r.url = nsListUrl eW "store1" then .ok 500 .malformed
  else .transportErr

/-- Mock server where the usage listing call itself returns HTTP 500. -/
def apiUsage500 : Api := fun r =>
  if r.url = usageUrl eW then .ok 500 .malformed
  else .transportErr

/-- Mock server identical to `apiAllOk` except that the snapshot listing is
returned in a different order. -/
def apiPermuted : Api := fun r =>
  if r.url = usageUrl eW then .ok 200 (.datastores [dW])
  else if r.url = nsListUrl eW "store1" then .ok 200 (.namespaces ["", "ns1"])
  else if r.url = snapshotsUrl eW "store1" "ns1" then .ok 200 (.snapshots ["b", "a", "a"])
  else if r.url = nodeUrl eW then .ok 200 (.host hW)
  else .transportErr

/-- Environment model for witnesses: only PBS_ENDPOINT is set. -/
def envW : String → String := fun k => if k = "PBS_ENDPOINT" then "https://env:8007" else ""

lemma mem_vmCountPairs {ids : List String} {k : String} {c : Nat} :
    (k, c) ∈ vmCountPairs ids ↔ k ∈ ids ∧ c = ids.count k := by
  unfold vmCountPairs
  simp only [List.mem_map, Prod.mk.injEq]
  constructor
  · rintro ⟨x, hx, rfl, rfl⟩
    exact ⟨List.mem_dedup.mp hx, rfl⟩
  · rintro ⟨hk, rfl⟩
    exact ⟨k, List.mem_dedup.mpr hk, rfl, rfl⟩

lemma vmCountPairs_perm {l1 l2 : List String} (h : l1.Perm l2) :
    (vmCountPairs l1).Perm (vmCountPairs l2) := by
  unfold vmCountPairs
  have hmap : l1.dedup.map (fun k => (k, l1.count k)) = l1.dedup.map (fun k => (k, l2.count k)) :=
    List.map_congr_left (fun a _ => by rw [h.count_eq])
  rw [hmap]
  exact (h.dedup).map _

lemma sum_vmCountPairs (ids : List String) :
    ((vmCountPairs ids).map (fun p => p.2)).sum = ids.length := by
  unfold vmCountPairs
  rw [List.map_map]
  have h1 : ((fun p : String × Nat => p.2) ∘ fun k => (k, ids.count k)) = ids.count := rfl
  rw [h1, ← List.sum_toFinset ids.count (List.nodup_dedup ids)]
  have h2 : ids.dedup.toFinset = ids.toFinset :=
    List.toFinset_eq_iff_perm_dedup.mpr (by rw [List.dedup_idem])
  rw [h2]
  exact List.sum_toFinset_count_eq_length ids

lemma getNamespaceMetric_ok {e : Exporter} {api : Api} {store ns : String} {ids : List String}
    (h : api (snapshotsReq e store ns) = .ok 200 (.snapshots ids)) :
    getNamespaceMetric e api store ns =
      { reqs := [snapshotsReq e store ns]
        nsCalls := [(store, ns)]
        samples :=
          { name := snapshotCountName, labelValues := [ns], value := (ids.length : Rat) } ::
            (vmCountPairs ids).map (fun p =>
              { name := snapshotVmCountName, labelValues := [ns, p.1], value := (p.2 : Rat) })
        err := none } := by
  simp [getNamespaceMetric, fetchResult, h, decSnapshots]

/-- C10: the host root-disk available gauge is registered under the name
"pbs_host_available_free", which does not follow the "pbs_host_disk_"
naming pattern used by the total and used root-disk gauges. -/
theorem host_disk_available_naming :
    hostDiskAvailableName = "pbs_host_available_free"
    ∧ hostDiskTotalName = "pbs_host_disk_total"
    ∧ hostDiskUsedName = "pbs_host_disk_used"
    ∧ hostDiskAvailableName.take 14 ≠ "pbs_host_disk_"
    ∧ hostDiskTotalName.take 14 = "pbs_host_disk_"
    ∧ hostDiskUsedName.take 14 = "pbs_host_disk_" := by
  decide

/-- C3: on a successful snapshot listing, the namespace collector emits a
snapshot_count sample equal to the listing length and exactly one
snapshot_vm_count sample per distinct backup-source identifier carrying its
multiplicity, independent of the order of the listing. -/
theorem snapshot_grouping (e : Exporter) (api api2 : Api) (store ns : String)
    (ids ids2 : List String)
    (h : api (snapshotsReq e store ns) = .ok 200 (.snapshots ids))
    (h2 : api2 (snapshotsReq e store ns) = .ok 200 (.snapshots ids2))
    (hperm : ids.Perm ids2) :
    ({ name := snapshotCountName, labelValues := [ns], value := (ids.length : Rat) } : Sample) ∈
        (getNamespaceMetric e api store ns).samples
    ∧ (∀ (k : String) (c : Nat),
        ({ name := snapshotVmCountName, labelValues := [ns, k], value := (c : Rat) } : Sample) ∈
            (getNamespaceMetric e api store ns).samples ↔ k ∈ ids ∧ c = ids.count k)
    ∧ (getNamespaceMetric e api store ns).samples.Perm
        (getNamespaceMetric e api2 store ns).samples := by
  rw [getNamespaceMetric_ok h, getNamespaceMetric_ok h2]
  refine ⟨List.mem_cons_self _ _, ?_, ?_⟩
  · intro k c
    constructor
    · intro hmem
      rcases List.mem_cons.mp hmem with heq | hmem2
      · have hne : snapshotVmCountName ≠ snapshotCountName := by decide
        exact absurd (congrArg Sample.name heq) hne
      · rcases List.mem_map.mp hmem2 with ⟨p, hp, heq⟩
        have hk : p.1 = k := by
          have := congrArg Sample.labelValues heq
          simpa using this
        have hc : p.2 = c := by
          have hv := congrArg Sample.value heq
          simp only at hv
          exact_mod_cast hv
        have : (k, c) ∈ vmCountPairs ids := by
          rw [← hk, ← hc]
          exact hp
        exact mem_vmCountPairs.mp this
    · intro hkc
      refine List.mem_cons_of_mem _ (List.mem_map.mpr ⟨(k, c), mem_vmCountPairs.mpr hkc, rfl⟩)
  · have hlen : ids2.length = ids.length := hperm.length_eq.symm
    rw [hlen]
    exact List.Perm.cons _ ((vmCountPairs_perm hperm).map _)

/-- C3 witness: with listing ["a", "a", "b"] the collector emits
snapshot_count 3 and the vm sample a:2, and a permuted listing yields a
permutation of the same samples. -/
theorem snapshot_grouping_witness :
    ({ name := snapshotCountName, labelValues := ["ns1"], value := (3 : Rat) } : Sample) ∈
        (getNamespaceMetric eW apiAllOk "store1" "ns1").samples
    ∧ ({ name := snapshotVmCountName, labelValues := ["ns1", "a"], value := (2 : Rat) } : Sample) ∈
        (getNamespaceMetric eW apiAllOk "store1" "ns1").samples
    ∧ (getNamespaceMetric eW apiAllOk "store1" "ns1").samples.Perm
        (getNamespaceMetric eW apiPermuted "store1" "ns1").samples := by
  have h := snapshot_grouping eW apiAllOk apiPermuted "store1" "ns1" ["a", "a", "b"]
    ["b", "a", "a"] (by decide) (by decide) (by decide)
  refine ⟨by simpa using h.1, ?_, h.2.2⟩
  have h2 := (h.2.1 "a" 2).mpr ⟨by decide, by decide⟩
  simpa using h2

/-- C9: the emitted snapshot_vm_count values sum to the emitted
snapshot_count value, and a snapshot_count sample of value 0 is emitted
even for an empty listing. -/
theorem vm_count_sum_invariant (e : Exporter) (api : Api) (store ns : String)
    (ids : List String)
    (h : api (snapshotsReq e store ns) = .ok 200 (.snapshots ids)) :
    ((((getNamespaceMetric e api store ns).samples.filter
          (fun s => s.name == snapshotVmCountName)).map Sample.value).sum = (ids.length : Rat))
    ∧ ({ name := snapshotCountName, labelValues := [ns], value := (ids.length : Rat) } : Sample) ∈
        (getNamespaceMetric e api store ns).samples
    ∧ (ids = [] → (getNamespaceMetric e api store ns).samples =
        [{ name := snapshotCountName, labelValues := [ns], value := 0 }]) := by
  rw [getNamespaceMetric_ok h]
  dsimp only
  refine ⟨?_, List.mem_cons_self _ _, ?_⟩
  · have hne : ¬ ((fun s : Sample => s.name == snapshotVmCountName)
        { name := snapshotCountName, labelValues := [ns], value := (ids.length : Rat) }) = true := by
      show ¬ (snapshotCountName == snapshotVmCountName) = true
      decide
    rw [List.filter_cons_of_neg (p := fun s : Sample => s.name == snapshotVmCountName) hne]
    rw [List.filter_map, List.map_map]
    have hall : ((vmCountPairs ids).filter
        ((fun s : Sample => s.name == snapshotVmCountName) ∘ fun p =>
          ({ name := snapshotVmCountName, labelValues := [ns, p.1], value := (p.2 : Rat) } : Sample)))
        = vmCountPairs ids := by
      apply List.filter_eq_self.mpr
      intro p _
      show (snapshotVmCountName == snapshotVmCountName) = true
      decide
    rw [hall]
    have hcomp : (Sample.value ∘ fun p : String × Nat =>
        ({ name := snapshotVmCountName, labelValues := [ns, p.1], value := (p.2 : Rat) } : Sample))
        = fun p : String × Nat => ((p.2 : Nat) : Rat) := rfl
    rw [hcomp]
    have hcast : (fun p : String × Nat => ((p.2 : Nat) : Rat))
        = (fun n : Nat => (n : Rat)) ∘ (fun p : String × Nat => p.2) := rfl
    rw [hcast, ← List.map_map, ← Nat.cast_list_sum, sum_vmCountPairs]
  · intro hids
    subst hids
    simp [vmCountPairs]

/-- C9 witness: instantiation of the sum invariant at the mock server with
listing ["a", "a", "b"]. -/
theorem vm_count_sum_invariant_witness :
    ((((getNamespaceMetric eW apiAllOk "store1" "ns1").samples.filter
          (fun s => s.name == snapshotVmCountName)).map Sample.value).sum = (3 : Rat)) := by
  have h := vm_count_sum_invariant eW apiAllOk "store1" "ns1" ["a", "a", "b"] (by decide)
  simpa using h.1

lemma andThen_of_err {a b : Emit} {er : ApiError} (h : a.err = some er) :
    a.andThen b = { reqs := a.reqs, nsCalls := a.nsCalls, samples := a.samples, err := some er } := by
  unfold Emit.andThen
  rw [h]

lemma andThen_of_ok {a b : Emit} (h : a.err = none) :
    a.andThen b =
      { reqs := a.reqs ++ b.reqs
        nsCalls := a.nsCalls ++ b.nsCalls
        samples := a.samples ++ b.samples
        err := b.err } := by
  unfold Emit.andThen
  rw [h]

lemma andThen_err_none_iff {a b : Emit} :
    (a.andThen b).err = none ↔ a.err = none ∧ b.err = none := by
  cases h : a.err with
  | some er => rw [andThen_of_err h]; simp [h]
  | none => rw [andThen_of_ok h]; simp [h]

lemma mem_nsCalls_andThen {a b : Emit} {p : String × String}
    (h : p ∈ (a.andThen b).nsCalls) : p ∈ a.nsCalls ∨ p ∈ b.nsCalls := by
  cases he : a.err with
  | some er => rw [andThen_of_err he] at h; exact Or.inl h
  | none => rw [andThen_of_ok he] at h; exact List.mem_append.mp h

lemma mem_samples_andThen {a b : Emit} {s : Sample}
    (h : s ∈ (a.andThen b).samples) : s ∈ a.samples ∨ s ∈ b.samples := by
  cases he : a.err with
  | some er => rw [andThen_of_err he] at h; exact Or.inl h
  | none => rw [andThen_of_ok he] at h; exact List.mem_append.mp h

lemma mem_reqs_andThen {a b : Emit} {r : ApiRequest}
    (h : r ∈ (a.andThen b).reqs) : r ∈ a.reqs ∨ r ∈ b.reqs := by
  cases he : a.err with
  | some er => rw [andThen_of_err he] at h; exact Or.inl h
  | none => rw [andThen_of_ok he] at h; exact List.mem_append.mp h

lemma getNamespaceMetric_nsCalls (e : Exporter) (api : Api) (store n : String) :
    (getNamespaceMetric e api store n).nsCalls = [(store, n)] := by
  cases h : fetchResult api (snapshotsReq e store n) decSnapshots <;>
    simp [getNamespaceMetric, h]

lemma nsLoop_calls_ne_root (e : Exporter) (api : Api) (store : String) (nss : List String) :
    ∀ p ∈ (nsLoop e api store nss).nsCalls, p.2 ≠ "" := by
  induction nss with
  | nil => intro p hp; simp [nsLoop] at hp
  | cons n rest ih =>
    intro p hp
    by_cases hn : n = ""
    · rw [nsLoop, if_pos hn] at hp
      exact ih p hp
    · rw [nsLoop, if_neg hn] at hp
      rcases mem_nsCalls_andThen hp with h1 | h2
      · rw [getNamespaceMetric_nsCalls] at h1
        rcases List.mem_singleton.mp h1 with rfl
        exact hn
      · exact ih p h2

lemma nsLoop_calls_of_success (e : Exporter) (api : Api) (store : String) (nss : List String)
    (h : (nsLoop e api store nss).err = none) :
    (nsLoop e api store nss).nsCalls =
      (nss.filter (fun n => n ≠ "")).map (fun n => (store, n)) := by
  induction nss with
  | nil => simp [nsLoop]
  | cons n rest ih =>
    by_cases hn : n = ""
    · rw [nsLoop, if_pos hn] at h ⊢
      rw [ih h, List.filter_cons]
      simp [hn]
    · rw [nsLoop, if_neg hn] at h ⊢
      obtain ⟨h1, h2⟩ := andThen_err_none_iff.mp h
      rw [andThen_of_ok h1]
      show (getNamespaceMetric e api store n).nsCalls ++ (nsLoop e api store rest).nsCalls = _
      rw [getNamespaceMetric_nsCalls, ih h2, List.filter_cons]
      simp [hn]

lemma getDatastoreMetric_ok {e : Exporter} {api : Api} {d : Datastore} {nss : List String}
    (h : api (nsListReq e d.store) = .ok 200 (.namespaces nss)) :
    getDatastoreMetric e api d =
      { reqs := nsListReq e d.store :: (nsLoop e api d.store nss).reqs
        nsCalls := (nsLoop e api d.store nss).nsCalls
        samples :=
          [{ name := availableName, labelValues := [], value := (d.avail : Rat) },
           { name := sizeName, labelValues := [], value := (d.total : Rat) },
           { name := usedName, labelValues := [], value := (d.used : Rat) }] ++
            (nsLoop e api d.store nss).samples
        err := (nsLoop e api d.store nss).err } := by
  simp [getDatastoreMetric, fetchResult, h, decNamespaces]

/-- C4: when the namespace listing of a datastore is enumerated, every
empty-name entry is skipped (the namespace collector is never invoked with
an empty namespace), and when the enumeration completes without error the
namespace collector is invoked exactly once per non-empty entry, in
listing order. -/
theorem namespace_enumeration (e : Exporter) (api : Api) (d : Datastore)
    (nss : List String)
    (h : api (nsListReq e d.store) = .ok 200 (.namespaces nss)) :
    (∀ p ∈ (getDatastoreMetric e api d).nsCalls, p.2 ≠ "")
    ∧ ((getDatastoreMetric e api d).err = none →
        (getDatastoreMetric e api d).nsCalls =
          (nss.filter (fun n => n ≠ "")).map (fun n => (d.store, n))) := by
  rw [getDatastoreMetric_ok h]
  exact ⟨nsLoop_calls_ne_root e api d.store nss,
    fun herr => nsLoop_calls_of_success e api d.store nss herr⟩

/-- C4 witness: with listing ["", "ns1"] the collector is invoked exactly
for the single non-empty entry. -/
theorem namespace_enumeration_witness :
    (getDatastoreMetric eW apiAllOk dW).nsCalls =
      ((["", "ns1"].filter (fun n => n ≠ "")).map (fun n => ("store1", n))) := by
  have h := namespace_enumeration eW apiAllOk dW ["", "ns1"] (by decide)
  simpa using h.2 (by decide)

lemma not_up_of_names {l : List Sample} {s : Sample} (hs : s ∈ l)
    (h : ∀ x ∈ l.map Sample.name, x ≠ upName) : s.name ≠ upName :=
  h s.name (List.mem_map.mpr ⟨s, hs, rfl⟩)

lemma getNamespaceMetric_not_up (e : Exporter) (api : Api) (store n : String) :
    ∀ s ∈ (getNamespaceMetric e api store n).samples, s.name ≠ upName := by
  intro s hs
  cases h : fetchResult api (snapshotsReq e store n) decSnapshots with
  | error er => simp [getNamespaceMetric, h] at hs
  | ok ids =>
    simp only [getNamespaceMetric, h] at hs
    rcases List.mem_cons.mp hs with rfl | hs2
    · show snapshotCountName ≠ upName
      decide
    · rcases List.mem_map.mp hs2 with ⟨p, _, rfl⟩
      show snapshotVmCountName ≠ upName
      decide

lemma nsLoop_not_up (e : Exporter) (api : Api) (store : String) (nss : List String) :
    ∀ s ∈ (nsLoop e api store nss).samples, s.name ≠ upName := by
  induction nss with
  | nil => intro s hs; simp [nsLoop] at hs
  | cons n rest ih =>
    intro s hs
    by_cases hn : n = ""
    · rw [nsLoop, if_pos hn] at hs
      exact ih s hs
    · rw [nsLoop, if_neg hn] at hs
      rcases mem_samples_andThen hs with h1 | h2
      · exact getNamespaceMetric_not_up e api store n s h1
      · exact ih s h2

lemma getDatastoreMetric_not_up (e : Exporter) (api : Api) (d : Datastore) :
    ∀ s ∈ (getDatastoreMetric e api d).samples, s.name ≠ upName := by
  intro s hs
  have husage : ∀ x ∈ ([{ name := availableName, labelValues := [], value := (d.avail : Rat) },
      { name := sizeName, labelValues := [], value := (d.total : Rat) },
      { name := usedName, labelValues := [], value := (d.used : Rat) }] : List Sample).map
        Sample.name, x ≠ upName := by
    have hnames : (([{ name := availableName, labelValues := [], value := (d.avail : Rat) },
        { name := sizeName, labelValues := [], value := (d.total : Rat) },
        { name := usedName, labelValues := [], value := (d.used : Rat) }] : List Sample).map
          Sample.name) = [availableName, sizeName, usedName] := rfl
    rw [hnames]
    decide
  cases h : fetchResult api (nsListReq e d.store) decNamespaces with
  | error er =>
    simp only [getDatastoreMetric, h] at hs
    exact not_up_of_names hs husage
  | ok nss =>
    simp only [getDatastoreMetric, h] at hs
    rcases List.mem_append.mp hs with h1 | h2
    · exact not_up_of_names h1 husage
    · exact nsLoop_not_up e api d.store nss s h2

lemma dsLoop_not_up (e : Exporter) (api : Api) (ds : List Datastore) :
    ∀ s ∈ (dsLoop e api ds).samples, s.name ≠ upName := by
  induction ds with
  | nil => intro s hs; simp [dsLoop] at hs
  | cons d rest ih =>
    intro s hs
    rw [dsLoop] at hs
    rcases mem_samples_andThen hs with h1 | h2
    · exact getDatastoreMetric_not_up e api d s h1
    · exact ih s h2

lemma getNodeMetrics_not_up (e : Exporter) (api : Api) :
    ∀ s ∈ (getNodeMetrics e api).samples, s.name ≠ upName := by
  intro s hs
  cases h : fetchResult api (nodeReq e) decHost with
  | error er => simp [getNodeMetrics, h] at hs
  | ok hd =>
    simp only [getNodeMetrics, h] at hs
    refine not_up_of_names hs ?_
    have hnames : (hostSamples hd).map Sample.name =
        [hostCpuUsageName, hostMemoryFreeName, hostMemoryTotalName, hostMemoryUsedName,
         hostSwapFreeName, hostSwapTotalName, hostSwapUsedName, hostDiskAvailableName,
         hostDiskTotalName, hostDiskUsedName, hostUptimeName, hostIoWaitName] := rfl
    rw [hnames]
    decide

lemma collectFromAPI_not_up (e : Exporter) (api : Api) :
    ∀ s ∈ (collectFromAPI e api).samples, s.name ≠ upName := by
  intro s hs
  cases h : fetchResult api (usageReq e) decDatastores with
  | error er => simp [collectFromAPI, h] at hs
  | ok ds =>
    simp only [collectFromAPI, h] at hs
    rcases mem_samples_andThen hs with h1 | h2
    · exact dsLoop_not_up e api ds s h1
    · exact getNodeMetrics_not_up e api s h2

/-- C1 counterexample: with one datastore whose namespace listing call
fails, the scrape publishes the three datastore usage gauges that were
emitted before the failure in addition to the up=0 sample, so samples other
than up=0 are observable for a failed scrape. -/
theorem collect_no_partial_cex :
    Collect eW apiNsFail =
      [{ name := availableName, labelValues := [], value := 100 },
       { name := sizeName, labelValues := [], value := 500 },
       { name := usedName, labelValues := [], value := 400 },
       upSample 0]
    ∧ Collect eW apiNsFail ≠ [upSample 0] := by
  constructor
  · decide
  · decide

/-- C1 amended: a scrape in which a nested fetch fails aborts the remaining
work and appends a single up=0 sample as its final sample — no up-named
sample is emitted anywhere else — but the samples already sent to the
channel before the failing fetch remain observable, so a partial metric set
can be published. -/
theorem collect_failure_up_zero (e : Exporter) (api : Api)
    (h : (collectFromAPI e api).err ≠ none) :
    Collect e api = (collectFromAPI e api).samples ++ [upSample 0]
    ∧ ∀ s ∈ (collectFromAPI e api).samples, s.name ≠ upName := by
  refine ⟨?_, collectFromAPI_not_up e api⟩
  cases herr : (collectFromAPI e api).err with
  | some er => simp [Collect, herr]
  | none => exact absurd herr h

/-- C1 witness: instantiation of the amended failure behavior at the mock
server whose namespace listing fails. -/
theorem collect_failure_up_zero_witness :
    Collect eW apiNsFail = (collectFromAPI eW apiNsFail).samples ++ [upSample 0] :=
  (collect_failure_up_zero eW apiNsFail (by decide)).1

lemma getNodeMetrics_reqs (e : Exporter) (api : Api) :
    (getNodeMetrics e api).reqs = [nodeReq e] := by
  cases h : fetchResult api (nodeReq e) decHost <;> simp [getNodeMetrics, h]

/-- C2 counterexample: in a fully successful scrape the first request
issued is the datastore usage listing, not the node status request; the
node status request is issued last, refuting the claimed host-first
order. -/
theorem collect_host_first_cex :
    (collectFromAPI eW apiAllOk).reqs.head? = some (usageReq eW)
    ∧ (collectFromAPI eW apiAllOk).reqs.head? ≠ some (nodeReq eW)
    ∧ (collectFromAPI eW apiAllOk).reqs.getLast? = some (nodeReq eW) := by
  exact ⟨by decide, by decide, by decide⟩

/-- C2 amended: within one scrape the nested calls execute strictly
sequentially, in the order: the datastore usage listing first, then the
per-datastore requests in datastore order, then the node status request
last. -/
theorem collect_sequential_order (e : Exporter) (api : Api) (ds : List Datastore)
    (h : api (usageReq e) = .ok 200 (.datastores ds))
    (hok : (dsLoop e api ds).err = none) :
    (collectFromAPI e api).reqs =
      usageReq e :: (dsLoop e api ds).reqs ++ [nodeReq e] := by
  have hf : fetchResult api (usageReq e) decDatastores = .ok ds := by
    simp [fetchResult, h, decDatastores]
  simp only [collectFromAPI, hf]
  rw [andThen_of_ok hok]
  simp [getNodeMetrics_reqs]

/-- C2 witness: instantiation of the sequential order at the fully
successful mock server. -/
theorem collect_sequential_order_witness :
    (collectFromAPI eW apiAllOk).reqs =
      usageReq eW :: (dsLoop eW apiAllOk [dW]).reqs ++ [nodeReq eW] :=
  collect_sequential_order eW apiAllOk [dW] (by decide) (by decide)

/-- C5 counterexample: on a successful node status fetch the host collector
emits 12 gauge samples, not 11 as claimed. -/
theorem node_metrics_count_cex :
    (getNodeMetrics eW apiAllOk).samples.length = 12
    ∧ (getNodeMetrics eW apiAllOk).samples.length ≠ 11 := by
  exact ⟨by decide, by decide⟩

/-- C5 amended: on a successful node status fetch the host collector emits
exactly the 12 gauge samples cpu usage, memory free/total/used, swap
free/total/used, root-disk avail/total/used, uptime and io-wait, in source
order, all with zero labels, each carrying the corresponding decoded
field. -/
theorem node_metrics_samples (e : Exporter) (api : Api) (hd : HostData)
    (h : api (nodeReq e) = .ok 200 (.host hd)) :
    (getNodeMetrics e api).samples =
      [{ name := hostCpuUsageName, labelValues := [], value := hd.cpu },
       { name := hostMemoryFreeName, labelValues := [], value := (hd.memFree : Rat) },
       { name := hostMemoryTotalName, labelValues := [], value := (hd.memTotal : Rat) },
       { name := hostMemoryUsedName, labelValues := [], value := (hd.memUsed : Rat) },
       { name := hostSwapFreeName, labelValues := [], value := (hd.swapFree : Rat) },
       { name := hostSwapTotalName, labelValues := [], value := (hd.swapTotal : Rat) },
       { name := hostSwapUsedName, labelValues := [], value := (hd.swapUsed : Rat) },
       { name := hostDiskAvailableName, labelValues := [], value := (hd.diskAvail : Rat) },
       { name := hostDiskTotalName, labelValues := [], value := (hd.diskTotal : Rat) },
       { name := hostDiskUsedName, labelValues := [], value := (hd.diskUsed : Rat) },
       { name := hostUptimeName, labelValues := [], value := (hd.uptime : Rat) },
       { name := hostIoWaitName, labelValues := [], value := hd.wait }]
    ∧ (getNodeMetrics e api).samples.length = 12
    ∧ ∀ s ∈ (getNodeMetrics e api).samples, s.labelValues = [] := by
  have hf : fetchResult api (nodeReq e) decHost = .ok hd := by
    simp [fetchResult, h, decHost]
  have hs : (getNodeMetrics e api).samples = hostSamples hd := by
    simp [getNodeMetrics, hf]
  refine ⟨by rw [hs]; rfl, by rw [hs]; rfl, ?_⟩
  intro s hsm
  rw [hs] at hsm
  simp only [hostSamples, List.mem_cons, List.not_mem_nil, or_false] at hsm
  rcases hsm with rfl | rfl | rfl | rfl | rfl | rfl | rfl | rfl | rfl | rfl | rfl | rfl <;> rfl

/-- C5 witness: instantiation of the node sample enumeration at the mock
server. -/
theorem node_metrics_samples_witness :
    (getNodeMetrics eW apiAllOk).samples.length = 12 :=
  (node_metrics_samples eW apiAllOk hW (by decide)).2.1

lemma getNamespaceMetric_auth (e : Exporter) (api : Api) (store n : String) :
    ∀ r ∈ (getNamespaceMetric e api store n).reqs,
      r.method = "GET" ∧ r.authHeader = e.authorizationHeader := by
  intro r hr
  cases h : fetchResult api (snapshotsReq e store n) decSnapshots <;>
    (simp only [getNamespaceMetric, h] at hr
     rcases List.mem_singleton.mp hr with rfl
     exact ⟨rfl, rfl⟩)

lemma nsLoop_auth (e : Exporter) (api : Api) (store : String) (nss : List String) :
    ∀ r ∈ (nsLoop e api store nss).reqs,
      r.method = "GET" ∧ r.authHeader = e.authorizationHeader := by
  induction nss with
  | nil => intro r hr; simp [nsLoop] at hr
  | cons n rest ih =>
    intro r hr
    by_cases hn : n = ""
    · rw [nsLoop, if_pos hn] at hr
      exact ih r hr
    · rw [nsLoop, if_neg hn] at hr
      rcases mem_reqs_andThen hr with h1 | h2
      · exact getNamespaceMetric_auth e api store n r h1
      · exact ih r h2

lemma getDatastoreMetric_auth (e : Exporter) (api : Api) (d : Datastore) :
    ∀ r ∈ (getDatastoreMetric e api d).reqs,
      r.method = "GET" ∧ r.authHeader = e.authorizationHeader := by
  intro r hr
  cases h : fetchResult api (nsListReq e d.store) decNamespaces with
  | error er =>
    simp only [getDatastoreMetric, h] at hr
    rcases List.mem_singleton.mp hr with rfl
    exact ⟨rfl, rfl⟩
  | ok nss =>
    simp only [getDatastoreMetric, h] at hr
    rcases List.mem_cons.mp hr with rfl | h2
    · exact ⟨rfl, rfl⟩
    · exact nsLoop_auth e api d.store nss r h2

lemma dsLoop_auth (e : Exporter) (api : Api) (ds : List Datastore) :
    ∀ r ∈ (dsLoop e api ds).reqs,
      r.method = "GET" ∧ r.authHeader = e.authorizationHeader := by
  induction ds with
  | nil => intro r hr; simp [dsLoop] at hr
  | cons d rest ih =>
    intro r hr
    rw [dsLoop] at hr
    rcases mem_reqs_andThen hr with h1 | h2
    · exact getDatastoreMetric_auth e api d r h1
    · exact ih r h2

lemma getNodeMetrics_auth (e : Exporter) (api : Api) :
    ∀ r ∈ (getNodeMetrics e api).reqs,
      r.method = "GET" ∧ r.authHeader = e.authorizationHeader := by
  intro r hr
  rw [getNodeMetrics_reqs] at hr
  rcases List.mem_singleton.mp hr with rfl
  exact ⟨rfl, rfl⟩

lemma collectFromAPI_auth (e : Exporter) (api : Api) :
    ∀ r ∈ (collectFromAPI e api).reqs,
      r.method = "GET" ∧ r.authHeader = e.authorizationHeader := by
  intro r hr
  cases h : fetchResult api (usageReq e) decDatastores with
  | error er =>
    simp only [collectFromAPI, h] at hr
    rcases List.mem_singleton.mp hr with rfl
    exact ⟨rfl, rfl⟩
  | ok ds =>
    simp only [collectFromAPI, h] at hr
    rcases List.mem_cons.mp hr with rfl | h2
    · exact ⟨rfl, rfl⟩
    · rcases mem_reqs_andThen h2 with h3 | h4
      · exact dsLoop_auth e api ds r h3
      · exact getNodeMetrics_auth e api r h4

/-- C6: the Authorization header value is built once at exporter
construction as "PBSAPIToken=" + username + "!" + token-name + ":" + token,
and every outbound request of a scrape is a GET carrying exactly that
single header value. -/
theorem authorization_header (endpoint username apitoken apitokenname : String) (api : Api) :
    (NewExporter endpoint username apitoken apitokenname).authorizationHeader =
      "PBSAPIToken=" ++ username ++ "!" ++ apitokenname ++ ":" ++ apitoken
    ∧ ∀ r ∈ (collectFromAPI (NewExporter endpoint username apitoken apitokenname) api).reqs,
        r.method = "GET" ∧
          r.authHeader = "PBSAPIToken=" ++ username ++ "!" ++ apitokenname ++ ":" ++ apitoken := by
  exact ⟨rfl, collectFromAPI_auth (NewExporter endpoint username apitoken apitokenname) api⟩

/-- C6 witness: the usage request of a concrete scrape carries the header
built from the constructor arguments. -/
theorem authorization_header_witness :
    (usageReq eW).method = "GET"
    ∧ (usageReq eW).authHeader =
        "PBSAPIToken=" ++ "user@pbs" ++ "!" ++ "tokname" ++ ":" ++ "secret" := by
  have h := authorization_header "http://pbs" "user@pbs" "secret" "tokname" apiAllOk
  exact h.2 (usageReq eW) (by decide)

/-- C7: every API call answered with a non-200 status fails with the
corresponding status error without retry, and a non-200 usage listing
response (such as HTTP 500) short-circuits the scrape after that single
request: no namespace-collector call, no further request, no sample but
up=0. -/
theorem status_error_short_circuit (e : Exporter) (api : Api) (b : Body) (code : Nat)
    (hc : code ≠ 200) (h : api (usageReq e) = .ok code b) :
    (∀ (α : Type) (req : ApiRequest) (dec : Body → Option α) (b2 : Body),
        api req = .ok code b2 → fetchResult api req dec = .error (.status code))
    ∧ collectFromAPI e api =
        { reqs := [usageReq e], nsCalls := [], samples := [], err := some (.status code) }
    ∧ Collect e api = [upSample 0] := by
  have hgen : ∀ (α : Type) (req : ApiRequest) (dec : Body → Option α) (b2 : Body),
      api req = .ok code b2 → fetchResult api req dec = .error (.status code) := by
    intro α req dec b2 hreq
    simp [fetchResult, hreq, hc]
  have hcol : collectFromAPI e api =
      { reqs := [usageReq e], nsCalls := [], samples := [], err := some (.status code) } := by
    simp only [collectFromAPI, hgen _ (usageReq e) decDatastores b h]
  refine ⟨hgen, hcol, ?_⟩
  simp [Collect, hcol]

/-- C7 witness: the scrape against the mock server answering HTTP 500 on
the usage listing issues exactly that one request and publishes only
up=0. -/
theorem status_error_short_circuit_witness :
    collectFromAPI eW apiUsage500 =
      { reqs := [usageReq eW], nsCalls := [], samples := [], err := some (.status 500) }
    ∧ Collect eW apiUsage500 = [upSample 0] := by
  have h := status_error_short_circuit eW apiUsage500 .malformed 500 (by decide) (by decide)
  exact ⟨h.2.1, h.2.2⟩

lemma env_pair {g fl x : String} (h : x = if g ≠ "" then g else fl) :
    (g ≠ "" → x = g) ∧ (g = "" → x = fl) := by
  constructor
  · intro hg
    rw [h, if_pos hg]
  · intro hg
    rw [h, if_neg (by simp [hg])]

lemma resolveConfig_loglevel (flags : Config) (getenv : String → String) :
    (resolveConfig flags getenv).loglevel =
      if getenv "PBS_LOGLEVEL" ≠ "" then getenv "PBS_LOGLEVEL" else flags.loglevel := by
  simp only [resolveConfig, apply_ite Config.loglevel, ite_self]

lemma resolveConfig_endpoint (flags : Config) (getenv : String → String) :
    (resolveConfig flags getenv).endpoint =
      if getenv "PBS_ENDPOINT" ≠ "" then getenv "PBS_ENDPOINT" else flags.endpoint := by
  simp only [resolveConfig, apply_ite Config.endpoint, ite_self]

lemma resolveConfig_username (flags : Config) (getenv : String → String) :
    (resolveConfig flags getenv).username =
      if getenv "PBS_USERNAME" ≠ "" then getenv "PBS_USERNAME" else flags.username := by
  simp only [resolveConfig, apply_ite Config.username, ite_self]

lemma resolveConfig_apitokenname (flags : Config) (getenv : String → String) :
    (resolveConfig flags getenv).apitokenname =
      if getenv "PBS_API_TOKEN_NAME" ≠ "" then getenv "PBS_API_TOKEN_NAME"
      else flags.apitokenname := by
  simp only [resolveConfig, apply_ite Config.apitokenname, ite_self]

lemma resolveConfig_apitoken (flags : Config) (getenv : String → String) :
    (resolveConfig flags getenv).apitoken =
      if getenv "PBS_API_TOKEN" ≠ "" then getenv "PBS_API_TOKEN" else flags.apitoken := by
  simp only [resolveConfig, apply_ite Config.apitoken, ite_self]

lemma resolveConfig_timeout (flags : Config) (getenv : String → String) :
    (resolveConfig flags getenv).timeout =
      if getenv "PBS_TIMEOUT" ≠ "" then getenv "PBS_TIMEOUT" else flags.timeout := by
  simp only [resolveConfig, apply_ite Config.timeout, ite_self]

lemma resolveConfig_insecure (flags : Config) (getenv : String → String) :
    (resolveConfig flags getenv).insecure =
      if getenv "PBS_INSECURE" ≠ "" then getenv "PBS_INSECURE" else flags.insecure := by
  simp only [resolveConfig, apply_ite Config.insecure, ite_self]

lemma resolveConfig_metricsPath (flags : Config) (getenv : String → String) :
    (resolveConfig flags getenv).metricsPath =
      if getenv "PBS_METRICS_PATH" ≠ "" then getenv "PBS_METRICS_PATH"
      else flags.metricsPath := by
  simp only [resolveConfig, apply_ite Config.metricsPath, ite_self]

lemma resolveConfig_listenAddress (flags : Config) (getenv : String → String) :
    (resolveConfig flags getenv).listenAddress =
      if getenv "PBS_LISTEN_ADDRESS" ≠ "" then getenv "PBS_LISTEN_ADDRESS"
      else flags.listenAddress := by
  simp only [resolveConfig, apply_ite Config.listenAddress, ite_self]

/-- C8: for each configuration item, a non-empty environment value makes
the effective configuration equal the environment value (overriding the
flag value), and an unset (empty) environment variable leaves the flag
value effective. -/
theorem config_env_precedence (flags : Config) (getenv : String → String) :
    ((getenv "PBS_LOGLEVEL" ≠ "" →
        (resolveConfig flags getenv).loglevel = getenv "PBS_LOGLEVEL")
      ∧ (getenv "PBS_LOGLEVEL" = "" →
        (resolveConfig flags getenv).loglevel = flags.loglevel))
    ∧ ((getenv "PBS_ENDPOINT" ≠ "" →
        (resolveConfig flags getenv).endpoint = getenv "PBS_ENDPOINT")
      ∧ (getenv "PBS_ENDPOINT" = "" →
        (resolveConfig flags getenv).endpoint = flags.endpoint))
    ∧ ((getenv "PBS_USERNAME" ≠ "" →
        (resolveConfig flags getenv).username = getenv "PBS_USERNAME")
      ∧ (getenv "PBS_USERNAME" = "" →
        (resolveConfig flags getenv).username = flags.username))
    ∧ ((getenv "PBS_API_TOKEN_NAME" ≠ "" →
        (resolveConfig flags getenv).apitokenname = getenv "PBS_API_TOKEN_NAME")
      ∧ (getenv "PBS_API_TOKEN_NAME" = "" →
        (resolveConfig flags getenv).apitokenname = flags.apitokenname))
    ∧ ((getenv "PBS_API_TOKEN" ≠ "" →
        (resolveConfig flags getenv).apitoken = getenv "PBS_API_TOKEN")
      ∧ (getenv "PBS_API_TOKEN" = "" →
        (resolveConfig flags getenv).apitoken = flags.apitoken))
    ∧ ((getenv "PBS_TIMEOUT" ≠ "" →
        (resolveConfig flags getenv).timeout = getenv "PBS_TIMEOUT")
      ∧ (getenv "PBS_TIMEOUT" = "" →
        (resolveConfig flags getenv).timeout = flags.timeout))
    ∧ ((getenv "PBS_INSECURE" ≠ "" →
        (resolveConfig flags getenv).insecure = getenv "PBS_INSECURE")
      ∧ (getenv "PBS_INSECURE" = "" →
        (resolveConfig flags getenv).insecure = flags.insecure))
    ∧ ((getenv "PBS_METRICS_PATH" ≠ "" →
        (resolveConfig flags getenv).metricsPath = getenv "PBS_METRICS_PATH")
      ∧ (getenv "PBS_METRICS_PATH" = "" →
        (resolveConfig flags getenv).metricsPath = flags.metricsPath))
    ∧ ((getenv "PBS_LISTEN_ADDRESS" ≠ "" →
        (resolveConfig flags getenv).listenAddress = getenv "PBS_LISTEN_ADDRESS")
      ∧ (getenv "PBS_LISTEN_ADDRESS" = "" →
        (resolveConfig flags getenv).listenAddress = flags.listenAddress)) :=
  ⟨env_pair (resolveConfig_loglevel flags getenv),
   env_pair (resolveConfig_endpoint flags getenv),
   env_pair (resolveConfig_username flags getenv),
   env_pair (resolveConfig_apitokenname flags getenv),
   env_pair (resolveConfig_apitoken flags getenv),
   env_pair (resolveConfig_timeout flags getenv),
   env_pair (resolveConfig_insecure flags getenv),
   env_pair (resolveConfig_metricsPath flags getenv),
   env_pair (resolveConfig_listenAddress flags getenv)⟩

/-- C8 witness: with only PBS_ENDPOINT set in the environment, the
effective endpoint is the environment value and the effective username
stays the flag default. -/
theorem config_env_precedence_witness :
    (resolveConfig defaultFlags envW).endpoint = "https://env:8007"
    ∧ (resolveConfig defaultFlags envW).username = "root@pam" := by
  have h := config_env_precedence defaultFlags envW
  constructor
  · have h2 := h.2.1.1 (by decide)
    simpa [envW] using h2
  · have h2 := h.2.2.1.2 (by decide)
    simpa [defaultFlags] using h2

end PbsExporter
